import Mathlib

/-!
Verification development for an MCP server template consisting of three
modules: a configuration provider (config.py), an HTTP client wrapper with
a lifecycle singleton (api_service.py), and a tool surface (main.py).

The embedding is shallow. JSON values are a `Json` inductive; Python dict
semantics (insertion order, `get` with defaults, truthiness, the `or`
fallback, `strip`, `lower`) are modelled by explicit helper functions.
The upstream HTTP service is a function from the outgoing request to an
`Outcome` (a transport failure, or a status code with body text and the
result of JSON-decoding the body). Every operation that can raise a Python
exception is `Except PyErr`-valued; each tool additionally returns the
list of HTTP requests it issued upstream, in order, so that claims of the
form "no request is issued" are statable.
-/

/-- Environment of process environment variables, as read by os.getenv:
`none` means the variable is unset. -/
def Env : Type := String → Option String

/-- JSON values as deserialized by response.json(). Object fields keep
insertion order, as Python dicts do. Numbers are modelled as integers
(no claim involves fractional values). -/
inductive Json where
  | null : Json
  | bool (b : Bool) : Json
  | num (n : Int) : Json
  | str (s : String) : Json
  | arr (xs : List Json) : Json
  | obj (fields : List (String × Json)) : Json

/-- Python exceptions that the modelled code can raise: the domain
exception APIError from api_service.py, and the builtin exceptions that
the reshaping code can trigger (ValueError also stands for
json.JSONDecodeError, which subclasses it). -/
inductive PyErr where
  | apiError (msg : String) : PyErr
  | valueError (msg : String) : PyErr
  | typeError (msg : String) : PyErr
  | attrError (msg : String) : PyErr

/-- Message of an exception, as produced by str(e) in the except blocks. -/
def PyErr.msg : PyErr → String
  | .apiError m => m
  | .valueError m => m
  | .typeError m => m
  | .attrError m => m

/-- Value of a query parameter in the params dict handed to httpx:
the code only ever puts strings and ints there. -/
inductive PVal where
  | s (v : String) : PVal
  | i (v : Int) : PVal

/-- An outgoing HTTP request as issued by client.request in
_make_request: method, fully built URL, and the params dict (with the
api_key already injected). -/
structure Request where
  method : String
  url : String
  params : List (String × PVal)

/-- Behaviour of the upstream service on one request: either a
transport-level failure (httpx.RequestError) or a response carrying the
HTTP status code, the body text, and `some j` when the body JSON-decodes
to `j` (`none` when response.json() raises). -/
inductive Outcome where
  | transportError (msg : String) : Outcome
  | response (status : Nat) (text : String) (body : Option Json) : Outcome

/-- Upstream service: what client.request reaches over the network. -/
def Upstream : Type := Request → Outcome

/-! ## Python semantics helpers -/

/-- Python truthiness of a JSON value: None, False, 0, empty string,
empty list and empty dict are falsy. -/
def Json.truthy : Json → Bool
  | .null => false
  | .bool b => b
  | .num n => n != 0
  | .str s => !s.isEmpty
  | .arr xs => !xs.isEmpty
  | .obj fs => !fs.isEmpty

/-- Model of dict.get(key, default): on a dict, the first field with the
given key or the default; on any non-dict value, AttributeError (the
value has no attribute get). -/
def pyGetD (j : Json) (key : String) (dflt : Json) : Except PyErr Json :=
  match j with
  | .obj fs =>
    match fs.find? (fun p => p.1 == key) with
    | some p => .ok p.2
    | none => .ok dflt
  | _ => .error (.attrError ("object has no attribute get: " ++ key))

/-- Model of dict.get(key): default None. -/
def pyGet (j : Json) (key : String) : Except PyErr Json :=
  pyGetD j key .null

/-- Model of the Python expression `a or b`: the first operand when it is
truthy, otherwise the second. -/
def pyOr (a b : Json) : Json :=
  if a.truthy then a else b

/-- Model of str.lower restricted to the character-wise lowering that the
claims exercise. -/
def pyLowerStr (s : String) : String :=
  ⟨s.data.map Char.toLower⟩

/-- Model of .lower() on a JSON value: only strings have it. -/
def pyLower : Json → Except PyErr String
  | .str s => .ok (pyLowerStr s)
  | _ => .error (.attrError "object has no attribute lower")

/-- Characters removed by str.strip() with no argument. -/
def isPySpace (c : Char) : Bool :=
  c == ' ' || c == '\t' || c == '\n' || c == '\r' || c == '\x0b' || c == '\x0c'

/-- Model of str.strip(): drop leading and trailing whitespace. -/
def pyStripStr (s : String) : String :=
  ⟨((s.data.dropWhile isPySpace).reverse.dropWhile isPySpace).reverse⟩

/-- Model of .strip() on a JSON value: only strings have it. -/
def pyStrip : Json → Except PyErr Json
  | .str s => .ok (.str (pyStripStr s))
  | _ => .error (.attrError "object has no attribute strip")

/-- Model of iterating a JSON value with a for loop: lists yield their
elements, dicts their keys, strings their characters; other values raise
TypeError. -/
def pyIter : Json → Except PyErr (List Json)
  | .arr xs => .ok xs
  | .obj fs => .ok (fs.map (fun p => .str p.1))
  | .str s => .ok (s.data.map (fun c => .str ⟨[c]⟩))
  | _ => .error (.typeError "object is not iterable")

/-- Model of the f-string conversion str(x) as applied to a category id
taken from JSON. Scalars are rendered exactly as Python renders them; the
textual repr of containers is abstracted (no claim reaches it, since only
truthy ids are ever converted and the exercised ids are strings). -/
def pyStr : Json → String
  | .null => "None"
  | .bool true => "True"
  | .bool false => "False"
  | .num n => toString n
  | .str s => s
  | .arr _ => "<list repr>"
  | .obj _ => "<dict repr>"

/-- Model of assigning d[key] = v on a params dict: overwrite in place
when the key exists, append otherwise (Python dict insertion order). -/
def dictSet (ps : List (String × PVal)) (key : String) (v : PVal) :
    List (String × PVal) :=
  if ps.any (fun p => p.1 == key) then
    ps.map (fun p => if p.1 == key then (key, v) else p)
  else
    ps ++ [(key, v)]

/-- Look up a query parameter in an outgoing request params dict. -/
def getParam : List (String × PVal) → String → Option PVal
  | [], _ => none
  | p :: ps, key => if p.1 == key then some p.2 else getParam ps key

/-- Model of str.lstrip(sep) for the single separator used by the code. -/
def lstripSlash (s : String) : String :=
  ⟨s.data.dropWhile (fun c => c == '/')⟩

/-- The inline error sentinel record built by the except blocks in
main.py. -/
def errObj (m : String) : Json :=
  .obj [("error", .str m)]

/-- Sequencing of a fallible reshaping function over the items of a
results list, as the for loops of main.py do: the first exception aborts
the whole computation. -/
def mapExcept (f : Json → Except PyErr Json) : List Json → Except PyErr (List Json)
  | [] => .ok []
  | x :: xs =>
    match f x with
    | .error e => .error e
    | .ok y =>
      match mapExcept f xs with
      | .error e => .error e
      | .ok ys => .ok (y :: ys)

/-! ## config.py -/

/-- Error message raised by Settings.api_key when API_KEY is missing. -/
def apiKeyErrMsg : String :=
  "API_KEY environment variable is required. Get your API key from [YOUR_API_PROVIDER] and add it to your .env file."

/-- Settings.api_base_url: os.getenv with a literal default (the default
applies only when the variable is unset, exactly as os.getenv does). -/
def Settings.api_base_url (env : Env) : String :=
  (env "API_BASE_URL").getD "https://api.example.com/v1"

/-- Settings.api_key: os.getenv without default, raising ValueError when
the value is missing or falsy (the empty string). -/
def Settings.api_key (env : Env) : Except String String :=
  match env "API_KEY" with
  | some k => if k.isEmpty then .error apiKeyErrMsg else .ok k
  | none => .error apiKeyErrMsg

/-! ## api_service.py: APIClient -/

/-- State of an APIClient instance: the two settings snapshots taken in
__init__ and the _client field. The pooled httpx.AsyncClient handle is
opaque to every claim, so it is modelled by a numeric identity that lets
distinct constructions be told apart. -/
structure APIClient where
  base_url : String
  api_key : String
  handle : Option Nat

/-- APIClient.__init__: reads settings.api_base_url and settings.api_key
once, eagerly; construction fails (ValueError propagates) when the API
key is missing, before any request can be made through the instance. -/
def APIClient.init (env : Env) : Except String APIClient :=
  match Settings.api_key env with
  | .error m => .error m
  | .ok k => .ok { base_url := Settings.api_base_url env, api_key := k, handle := none }

/-- APIClient.get_client: return the stored handle if one is live,
otherwise construct a new one. `fresh` supplies the identity of the next
handle httpx would construct; the result is the handle handed back, the
updated client state, and the updated fresh counter (unchanged exactly
when no construction happened). -/
def APIClient.get_client (c : APIClient) (fresh : Nat) : Nat × APIClient × Nat :=
  match c.handle with
  | some h => (h, c, fresh)
  | none => (fresh, { c with handle := some fresh }, fresh + 1)

/-- APIClient.close: close and clear the handle when one is live,
otherwise do nothing. -/
def APIClient.close (c : APIClient) : APIClient :=
  match c.handle with
  | some _ => { c with handle := none }
  | none => c

/-- Request construction performed at the top of _make_request: build the
URL from the base URL and the slash-stripped endpoint, and inject api_key
into the params dict. -/
def APIClient.request_for (c : APIClient) (method endpoint : String)
    (params : List (String × PVal)) : Request :=
  { method := method,
    url := c.base_url ++ "/" ++ lstripSlash endpoint,
    params := dictSet params "api_key" (.s c.api_key) }

/-- The try and except chain of _make_request applied to what came back
from the network. Status handling follows response.raise_for_status
(raises HTTPStatusError for every status of at least 400): 404, 401 and
429 get dedicated APIError messages, every other error status gets the
generic message carrying the status code and the body text. A transport
failure (httpx.RequestError) becomes an APIError wrapping the underlying
message. On success the JSON body is returned; a body that fails to
JSON-decode propagates the decoder exception uncaught. -/
def translateOutcome (endpoint : String) : Outcome → Except PyErr Json
  | .transportError m => .error (.apiError ("Request failed: " ++ m))
  | .response status text body =>
    if 400 ≤ status then
      if status == 404 then
        .error (.apiError ("Not found: " ++ endpoint))
      else if status == 401 then
        .error (.apiError "Invalid API key or authentication failed")
      else if status == 429 then
        .error (.apiError "Rate limit exceeded - try again later")
      else
        .error (.apiError ("API error " ++ toString status ++ ": " ++ text))
    else
      match body with
      | some j => .ok j
      | none => .error (.valueError ("Expecting value: " ++ text))

/-- APIClient._make_request: build the request, issue it upstream and
translate the outcome. The creation of the pooled handle performed by
the initial get_client() call is modelled separately by
APIClient.get_client since it never affects the request content. Returns
the translated result together with the request it issued. -/
def APIClient.make_request (c : APIClient) (up : Upstream)
    (method endpoint : String) (params : List (String × PVal)) :
    Except PyErr Json × Request :=
  (translateOutcome endpoint (up (c.request_for method endpoint params)),
   c.request_for method endpoint params)

/-- APIClient.search: clamp the limit to 50 and GET /search. -/
def APIClient.search (c : APIClient) (up : Upstream) (query : String) (limit : Int) :
    Except PyErr Json × Request :=
  c.make_request up "GET" "/search" [("q", .s query), ("limit", .i (min limit 50))]

/-- APIClient.get_details: GET /items/{item_id} with no extra params. -/
def APIClient.get_details (c : APIClient) (up : Upstream) (item_id : String) :
    Except PyErr Json × Request :=
  c.make_request up "GET" ("/items/" ++ item_id) []

/-- APIClient.list_categories: GET /categories with no extra params. -/
def APIClient.list_categories (c : APIClient) (up : Upstream) :
    Except PyErr Json × Request :=
  c.make_request up "GET" "/categories" []

/-- APIClient.get_popular_items: clamp the limit to 50 and GET /popular. -/
def APIClient.get_popular_items (c : APIClient) (up : Upstream) (limit : Int) :
    Except PyErr Json × Request :=
  c.make_request up "GET" "/popular" [("limit", .i (min limit 50))]

/-- APIClient.get_items_by_category: clamp the limit to 50 and GET
/categories/{category_id}/items. -/
def APIClient.get_items_by_category (c : APIClient) (up : Upstream)
    (category_id : String) (limit : Int) : Except PyErr Json × Request :=
  c.make_request up "GET" ("/categories/" ++ category_id ++ "/items")
    [("limit", .i (min limit 50))]

/-! ## api_service.py: module-level singleton -/

/-- get_api_client: return the stored instance, constructing one first
when the global _client is None. Returns the instance together with the
updated global state; the ValueError raised by a failed construction
propagates. -/
def get_api_client (env : Env) (g : Option APIClient) :
    Except PyErr (APIClient × Option APIClient) :=
  match g with
  | some c => .ok (c, some c)
  | none =>
    match APIClient.init env with
    | .ok c => .ok (c, some c)
    | .error m => .error (.valueError m)

/-- cleanup_api_client: when an instance is stored, close it and clear
the global reference; otherwise do nothing. -/
def cleanup_api_client (g : Option APIClient) : Option APIClient :=
  match g with
  | some c =>
    let _ := c.close
    none
  | none => none

/-! ## main.py: reshaping helpers -/

/-- Reshaping of one search result item (search_items and the shared
part of get_popular_items): fixed output key set in insertion order, with
title falling back to name, description defaulting to the empty string
then stripped, url defaulting to None and tags to an empty list. -/
def reshapeSearchItem (item : Json) : Except PyErr Json :=
  match pyGet item "id" with
  | .error e => .error e
  | .ok idv =>
  match pyGet item "title" with
  | .error e => .error e
  | .ok title =>
  match pyGet item "name" with
  | .error e => .error e
  | .ok name =>
  match pyGetD item "description" (.str "") with
  | .error e => .error e
  | .ok descRaw =>
  match pyStrip descRaw with
  | .error e => .error e
  | .ok desc =>
  match pyGet item "url" with
  | .error e => .error e
  | .ok url =>
  match pyGetD item "tags" (.arr []) with
  | .error e => .error e
  | .ok tags =>
    .ok (.obj [("id", idv), ("title", pyOr title name), ("description", desc),
               ("url", url), ("tags", tags)])

/-- Reshaping of one item in get_popular_items: the search shape plus a
popularity_score field with a score-then-rating fallback. -/
def reshapePopularItem (item : Json) : Except PyErr Json :=
  match reshapeSearchItem item with
  | .error e => .error e
  | .ok base =>
  match base with
  | .obj fs =>
    match pyGet item "score" with
    | .error e => .error e
    | .ok score =>
    match pyGet item "rating" with
    | .error e => .error e
    | .ok rating =>
      .ok (.obj (fs ++ [("popularity_score", pyOr score rating)]))
  | _ => .error (.typeError "unreachable")

/-- Reshaping of one category record in list_categories. -/
def reshapeCategory (category : Json) : Except PyErr Json :=
  match pyGet category "id" with
  | .error e => .error e
  | .ok idv =>
  match pyGet category "name" with
  | .error e => .error e
  | .ok name =>
  match pyGet category "description" with
  | .error e => .error e
  | .ok desc =>
  match pyGet category "count" with
  | .error e => .error e
  | .ok count =>
  match pyGet category "items" with
  | .error e => .error e
  | .ok items =>
  match pyGet category "icon" with
  | .error e => .error e
  | .ok icon =>
    .ok (.obj [("id", idv), ("name", name), ("description", desc),
               ("item_count", pyOr count items), ("icon", icon)])

/-- Reshaping of one item in get_item_details. -/
def reshapeDetails (item : Json) : Except PyErr Json :=
  match pyGet item "id" with
  | .error e => .error e
  | .ok idv =>
  match pyGet item "title" with
  | .error e => .error e
  | .ok title =>
  match pyGet item "name" with
  | .error e => .error e
  | .ok name =>
  match pyGetD item "description" (.str "") with
  | .error e => .error e
  | .ok descRaw =>
  match pyStrip descRaw with
  | .error e => .error e
  | .ok desc =>
  match pyGetD item "full_description" (.str "") with
  | .error e => .error e
  | .ok fullRaw =>
  match pyStrip fullRaw with
  | .error e => .error e
  | .ok full =>
  match pyGet item "url" with
  | .error e => .error e
  | .ok url =>
  match pyGet item "created_at" with
  | .error e => .error e
  | .ok created =>
  match pyGet item "date" with
  | .error e => .error e
  | .ok date =>
  match pyGet item "author" with
  | .error e => .error e
  | .ok author =>
  match pyGet item "creator" with
  | .error e => .error e
  | .ok creator =>
  match pyGetD item "tags" (.arr []) with
  | .error e => .error e
  | .ok tags =>
  match pyGet item "category" with
  | .error e => .error e
  | .ok cat =>
  match pyGetD item "metadata" (.obj []) with
  | .error e => .error e
  | .ok meta =>
    .ok (.obj [("id", idv), ("title", pyOr title name), ("description", desc),
               ("full_description", full), ("url", url),
               ("created_date", pyOr created date), ("author", pyOr author creator),
               ("tags", tags), ("category", cat), ("metadata", meta)])

/-- Extraction of result.get("results", []) followed by the per-item loop
of main.py: failure anywhere aborts into the except block. -/
def reshapeResults (f : Json → Except PyErr Json) (result : Json) :
    Except PyErr (List Json) :=
  match pyGetD result "results" (.arr []) with
  | .error e => .error e
  | .ok rs =>
    match pyIter rs with
    | .error e => .error e
    | .ok items => mapExcept f items

/-! ## main.py: tools -/

/-- Truthiness of the Optional[str] category argument as checked by
`if category:` — None and the empty string are falsy. -/
def categoryTruthy : Option String → Bool
  | some c => !c.isEmpty
  | none => false

/-- The category-resolution loop of get_popular_items: scan the listed
categories in order; on the first one whose name (defaulting to the empty
string) lowercases to the lowercased argument, take its id and stop. The
loop variable starts as None, so an exhausted scan yields None. -/
def findCategoryId (cats : List Json) (category : String) : Except PyErr Json :=
  match cats with
  | [] => .ok .null
  | cat :: rest =>
    match pyGetD cat "name" (.str "") with
    | .error e => .error e
    | .ok nameVal =>
      match pyLower nameVal with
      | .error e => .error e
      | .ok lowered =>
        if lowered == pyLowerStr category then pyGet cat "id"
        else findCategoryId rest category

/-- Body of the search_items tool (the code inside its try block):
acquire the client, search, reshape each result. Also returns the
requests issued upstream, in order. -/
def search_items_body (env : Env) (g : Option APIClient) (up : Upstream)
    (query : String) (limit : Int) : Except PyErr (List Json) × List Request :=
  match get_api_client env g with
  | .error e => (.error e, [])
  | .ok (c, _) =>
    match c.search up query limit with
    | (.error e, req) => (.error e, [req])
    | (.ok result, req) => (reshapeResults reshapeSearchItem result, [req])

/-- Body of the get_item_details tool. -/
def get_item_details_body (env : Env) (g : Option APIClient) (up : Upstream)
    (item_id : String) : Except PyErr Json × List Request :=
  match get_api_client env g with
  | .error e => (.error e, [])
  | .ok (c, _) =>
    match c.get_details up item_id with
    | (.error e, req) => (.error e, [req])
    | (.ok item, req) => (reshapeDetails item, [req])

/-- Body of the list_categories tool. -/
def list_categories_body (env : Env) (g : Option APIClient) (up : Upstream) :
    Except PyErr (List Json) × List Request :=
  match get_api_client env g with
  | .error e => (.error e, [])
  | .ok (c, _) =>
    match c.list_categories up with
    | (.error e, req) => (.error e, [req])
    | (.ok result, req) => (reshapeResults reshapeCategory result, [req])

/-- Body of the get_popular_items tool: with a truthy category argument,
first list the categories and resolve the name case-insensitively; only
when a truthy id was found is the items-by-category request issued,
otherwise the not-found sentinel is returned directly (a normal return,
not an exception). Without a category, fetch /popular. Either result
list is reshaped the same way. -/
def get_popular_items_body (env : Env) (g : Option APIClient) (up : Upstream)
    (limit : Int) (category : Option String) :
    Except PyErr (List Json) × List Request :=
  match get_api_client env g with
  | .error e => (.error e, [])
  | .ok (c, _) =>
    if categoryTruthy category then
      let cat := category.getD ""
      match c.list_categories up with
      | (.error e, req1) => (.error e, [req1])
      | (.ok catsResult, req1) =>
        match pyGetD catsResult "results" (.arr []) with
        | .error e => (.error e, [req1])
        | .ok rs =>
          match pyIter rs with
          | .error e => (.error e, [req1])
          | .ok cats =>
            match findCategoryId cats cat with
            | .error e => (.error e, [req1])
            | .ok category_id =>
              if category_id.truthy then
                match c.get_items_by_category up (pyStr category_id) limit with
                | (.error e, req2) => (.error e, [req1, req2])
                | (.ok result, req2) =>
                  (reshapeResults reshapePopularItem result, [req1, req2])
              else
                (.ok [errObj ("Category \x27" ++ cat ++ "\x27 not found")], [req1])
    else
      match c.get_popular_items up limit with
      | (.error e, req) => (.error e, [req])
      | (.ok result, req) => (reshapeResults reshapePopularItem result, [req])

/-- The catch-all except block of a list-returning tool: a successful
body passes through, any exception becomes a one-element sentinel list
with a prefixed message. -/
def wrapToolList (pre : String) :
    Except PyErr (List Json) × List Request → List Json × List Request
  | (.ok items, t) => (items, t)
  | (.error e, t) => ([errObj (pre ++ e.msg)], t)

/-- The catch-all except block of an object-returning tool. -/
def wrapToolObj (pre : String) :
    Except PyErr Json × List Request → Json × List Request
  | (.ok item, t) => (item, t)
  | (.error e, t) => (errObj (pre ++ e.msg), t)

/-- The search_items tool as exposed to the host. -/
def search_items (env : Env) (g : Option APIClient) (up : Upstream)
    (query : String) (limit : Int) : List Json × List Request :=
  wrapToolList "Search failed: " (search_items_body env g up query limit)

/-- The get_item_details tool as exposed to the host. -/
def get_item_details (env : Env) (g : Option APIClient) (up : Upstream)
    (item_id : String) : Json × List Request :=
  wrapToolObj "Failed to get item details: " (get_item_details_body env g up item_id)

/-- The list_categories tool as exposed to the host. -/
def list_categories (env : Env) (g : Option APIClient) (up : Upstream) :
    List Json × List Request :=
  wrapToolList "Failed to list categories: " (list_categories_body env g up)

/-- The get_popular_items tool as exposed to the host. -/
def get_popular_items (env : Env) (g : Option APIClient) (up : Upstream)
    (limit : Int) (category : Option String) : List Json × List Request :=
  wrapToolList "Failed to get popular items: "
    (get_popular_items_body env g up limit category)

/-! ## Substring observer and facts about it -/

/-- Boolean list-prefix test used by the substring observer. -/
def prefixB : List Char → List Char → Bool
  | [], _ => true
  | _ :: _, [] => false
  | a :: as, b :: bs => a == b && prefixB as bs

/-- Boolean list-infix test: the needle occurs at some position. -/
def infixB (n : List Char) : List Char → Bool
  | [] => n.isEmpty
  | h :: t => prefixB n (h :: t) || infixB n t

/-- Substring containment on strings, the observer used to state the
message-content claims. -/
def containsStr (hay needle : String) : Bool :=
  infixB needle.data hay.data

/-! ## Concrete fixtures used by witnesses -/

/-- Environment with only API_KEY set. -/
def envEx : Env := fun k => if k == "API_KEY" then some "secret" else none

/-- The client that APIClient.init builds under envEx. -/
def cEx : APIClient :=
  { base_url := "https://api.example.com/v1", api_key := "secret", handle := none }

/-- Upstream that always fails at the transport level. -/
def upFail : Upstream := fun _ => .transportError "boom"

/-- Environment with no variables set at all. -/
def env0 : Env := fun _ => none

/-- Upstream returning the search response body of the C4 scenario on
every request. -/
def upC4 : Upstream := fun _ =>
  .response 200 "ok"
    (some (.obj [("results", .arr [.obj [("id", .str "1"), ("name", .str "Foo")]])]))

/-- The search_items output record that the C4 scenario expects. -/
def expectedC4 : Json :=
  .obj [("id", .str "1"), ("title", .str "Foo"), ("description", .str ""),
        ("url", .null), ("tags", .arr [])]

/-- A category listing holding one category named Food. -/
def catsListEx : List Json := [.obj [("name", .str "Food"), ("id", .str "7")]]

/-- Upstream returning the Food category listing on every request. -/
def upCats : Upstream := fun _ =>
  .response 200 "ok" (some (.obj [("results", .arr catsListEx)]))

/-- Upstream answering every request with HTTP status 404. -/
def up404 : Upstream := fun _ => .response 404 "missing" none

/-! ## Facts about the substring observer -/

theorem prefixB_append (n r : List Char) : prefixB n (n ++ r) = true := by
  induction n with
  | nil => rfl
  | cons a as ih => simp [prefixB, ih]

theorem prefixB_refl (n : List Char) : prefixB n n = true := by
  induction n with
  | nil => rfl
  | cons a as ih => simp [prefixB, ih]

theorem infixB_of_prefixB (n hay : List Char) (h : prefixB n hay = true) :
    infixB n hay = true := by
  cases hay with
  | nil =>
    cases n with
    | nil => rfl
    | cons a as => exact absurd h (by simp [prefixB])
  | cons x t => simp [infixB, h]

theorem infixB_cons (n : List Char) (a : Char) (t : List Char)
    (h : infixB n t = true) : infixB n (a :: t) = true := by
  simp [infixB, h]

theorem infixB_append_left (a n t : List Char) (h : infixB n t = true) :
    infixB n (a ++ t) = true := by
  induction a with
  | nil => simpa using h
  | cons x xs ih => simpa [List.cons_append] using infixB_cons n x (xs ++ t) ih

theorem infixB_sandwich (pre n post : List Char) :
    infixB n (pre ++ (n ++ post)) = true :=
  infixB_append_left pre n (n ++ post) (infixB_of_prefixB n (n ++ post) (prefixB_append n post))

theorem infixB_suffix (pre n : List Char) : infixB n (pre ++ n) = true :=
  infixB_append_left pre n n (infixB_of_prefixB n n (prefixB_refl n))

theorem containsStr_suffix (a s : String) : containsStr (a ++ s) s = true := by
  show infixB s.data (a.data ++ s.data) = true
  exact infixB_suffix a.data s.data

theorem pyLowerStr_append (a b : String) :
    pyLowerStr (a ++ b) = pyLowerStr a ++ pyLowerStr b := by
  apply String.ext
  simp [pyLowerStr, String.data_append]

/-! ## Shared facts about the outgoing params dict -/

theorem getParam_search_limit (c : APIClient) (up : Upstream) (q : String)
    (l : Int) : getParam (c.search up q l).2.params "limit" = some (.i (min l 50)) := rfl

theorem getParam_popular_limit (c : APIClient) (up : Upstream) (l : Int) :
    getParam (c.get_popular_items up l).2.params "limit" = some (.i (min l 50)) := rfl

theorem getParam_bycat_limit (c : APIClient) (up : Upstream) (cid : String)
    (l : Int) :
    getParam (c.get_items_by_category up cid l).2.params "limit" = some (.i (min l 50)) := rfl

theorem getParam_map_set (k : String) (v : PVal) (ps : List (String × PVal))
    (h : ps.any (fun p => p.1 == k) = true) :
    getParam (ps.map (fun p => if p.1 == k then (k, v) else p)) k = some v := by
  induction ps with
  | nil => simp at h
  | cons p ps ih =>
    cases hp : (p.1 == k) with
    | true =>
      rw [List.map_cons, if_pos hp]
      simp [getParam]
    | false =>
      simp only [List.any_cons] at h
      rw [hp] at h
      simp only [Bool.false_or] at h
      rw [List.map_cons, if_neg (ne_true_of_eq_false hp)]
      show (if (p.1 == k) = true then some p.2
            else getParam (ps.map (fun p => if p.1 == k then (k, v) else p)) k) = some v
      rw [if_neg (ne_true_of_eq_false hp)]
      exact ih h

theorem getParam_append_new (k : String) (v : PVal) (ps : List (String × PVal))
    (h : ps.any (fun p => p.1 == k) = false) :
    getParam (ps ++ [(k, v)]) k = some v := by
  induction ps with
  | nil => simp [getParam]
  | cons p ps ih =>
    simp only [List.any_cons, Bool.or_eq_false_iff] at h
    obtain ⟨hp, h'⟩ := h
    rw [List.cons_append]
    show (if (p.1 == k) = true then some p.2 else getParam (ps ++ [(k, v)]) k) = some v
    rw [if_neg (ne_true_of_eq_false hp)]
    exact ih h'

theorem getParam_dictSet (ps : List (String × PVal)) (k : String) (v : PVal) :
    getParam (dictSet ps k v) k = some v := by
  unfold dictSet
  cases h : ps.any (fun p => p.1 == k) with
  | true =>
    rw [if_pos rfl]
    exact getParam_map_set k v ps h
  | false =>
    rw [if_neg Bool.false_ne_true]
    exact getParam_append_new k v ps h

/-! ## Claims -/

/-- C1: for every caller-supplied limit above 50, the limit query
parameter of the outgoing request built by search, get_popular_items and
get_items_by_category is exactly 50, while any limit of at most 50 is
forwarded unchanged. -/
theorem c1_limit_clamped_at_50 (c : APIClient) (up : Upstream)
    (query cid : String) (limit : Int) (h : 50 < limit) :
    (getParam (c.search up query limit).2.params "limit" = some (.i 50) ∧
     getParam (c.get_popular_items up limit).2.params "limit" = some (.i 50) ∧
     getParam (c.get_items_by_category up cid limit).2.params "limit" = some (.i 50)) ∧
    ∀ l : Int, l ≤ 50 →
      (getParam (c.search up query l).2.params "limit" = some (.i l) ∧
       getParam (c.get_popular_items up l).2.params "limit" = some (.i l) ∧
       getParam (c.get_items_by_category up cid l).2.params "limit" = some (.i l)) := by
  have hm : min limit 50 = (50 : Int) := min_eq_right h.le
  refine ⟨⟨?_, ?_, ?_⟩, ?_⟩
  · rw [getParam_search_limit, hm]
  · rw [getParam_popular_limit, hm]
  · rw [getParam_bycat_limit, hm]
  · intro l hl
    have hm2 : min l 50 = l := min_eq_left hl
    exact ⟨by rw [getParam_search_limit, hm2],
           by rw [getParam_popular_limit, hm2],
           by rw [getParam_bycat_limit, hm2]⟩

/-- C1 witness: search("coffee", 200) goes upstream with limit 50 and
search("coffee", 5) with limit 5. -/
theorem c1_limit_clamped_at_50_witness :
    getParam (cEx.search upFail "coffee" 200).2.params "limit" = some (.i 50) ∧
    getParam (cEx.search upFail "coffee" 5).2.params "limit" = some (.i 5) :=
  ⟨(c1_limit_clamped_at_50 cEx upFail "coffee" "c1" 200 (by decide)).1.1,
   ((c1_limit_clamped_at_50 cEx upFail "coffee" "c1" 200 (by decide)).2 5 (by decide)).1⟩

/-- C9: the clamp is one-sided. Every limit of at most 50, zero and
negative values included, is forwarded unchanged by search,
get_popular_items and get_items_by_category, with no lower bound
applied. -/
theorem c9_low_limits_forwarded (c : APIClient) (up : Upstream)
    (query cid : String) (limit : Int) (h : limit ≤ 50) :
    getParam (c.search up query limit).2.params "limit" = some (.i limit) ∧
    getParam (c.get_popular_items up limit).2.params "limit" = some (.i limit) ∧
    getParam (c.get_items_by_category up cid limit).2.params "limit" = some (.i limit) := by
  have hm : min limit 50 = limit := min_eq_left h
  exact ⟨by rw [getParam_search_limit, hm],
         by rw [getParam_popular_limit, hm],
         by rw [getParam_bycat_limit, hm]⟩

/-- C9 witness: the negative limit -7 is forwarded unchanged by all
three operations. -/
theorem c9_low_limits_forwarded_witness :
    getParam (cEx.search upFail "coffee" (-7)).2.params "limit" = some (.i (-7)) ∧
    getParam (cEx.get_popular_items upFail (-7)).2.params "limit" = some (.i (-7)) ∧
    getParam (cEx.get_items_by_category upFail "c1" (-7)).2.params "limit" = some (.i (-7)) :=
  c9_low_limits_forwarded cEx upFail "coffee" "c1" (-7) (by decide)

/-- C7: calling get_client twice in succession without an intervening
close hands back the same pooled handle both times, leaves the client
state untouched by the second call, and the second call constructs
nothing (the fresh-handle counter does not advance). -/
theorem c7_get_client_idempotent (c : APIClient) (fresh : Nat) :
    ((c.get_client fresh).2.1).get_client (c.get_client fresh).2.2
      = ((c.get_client fresh).1, (c.get_client fresh).2.1, (c.get_client fresh).2.2) := by
  cases h : c.handle <;> simp [APIClient.get_client, h]

/-- C8: cleanup_api_client is total (never raises), running it twice
equals running it once, the resulting state stores no client instance
and hence no live pooled handle, and close is a no-op on a client with
no handle. -/
theorem c8_cleanup_idempotent (g : Option APIClient) :
    cleanup_api_client (cleanup_api_client g) = cleanup_api_client g ∧
    cleanup_api_client g = none ∧
    ∀ c : APIClient, c.handle = none → APIClient.close c = c := by
  refine ⟨?_, ?_, ?_⟩
  · cases g <;> rfl
  · cases g <;> rfl
  · intro c hc
    unfold APIClient.close
    rw [hc]

/-- C8 witness: double cleanup equals single cleanup starting from a
stored instance, and close leaves the handle-free client cEx unchanged. -/
theorem c8_cleanup_idempotent_witness :
    cleanup_api_client (cleanup_api_client (some cEx)) = cleanup_api_client (some cEx) ∧
    APIClient.close cEx = cEx :=
  ⟨(c8_cleanup_idempotent (some cEx)).1, (c8_cleanup_idempotent (some cEx)).2.2 cEx rfl⟩

/-- C6: when API_KEY is unset or empty, reading the api_key setting
fails with the configuration error (no silent default), client
construction fails for the same reason, the singleton cannot produce a
client, and consequently no tool issues any network request (every
request trace is empty) — the failure happens before any network call. -/
theorem c6_missing_api_key_fails_fast (env : Env)
    (h : env "API_KEY" = none ∨ env "API_KEY" = some "") :
    Settings.api_key env = .error apiKeyErrMsg ∧
    APIClient.init env = .error apiKeyErrMsg ∧
    get_api_client env none = .error (.valueError apiKeyErrMsg) ∧
    (∀ up query limit, (search_items env none up query limit).2 = []) ∧
    (∀ up item_id, (get_item_details env none up item_id).2 = []) ∧
    (∀ up, (list_categories env none up).2 = []) ∧
    (∀ up limit category, (get_popular_items env none up limit category).2 = []) := by
  have hk : Settings.api_key env = .error apiKeyErrMsg := by
    rcases h with h | h
    · simp [Settings.api_key, h]
    · simp [Settings.api_key, h]
      decide
  have hi : APIClient.init env = .error apiKeyErrMsg := by
    simp [APIClient.init, hk]
  have hg : get_api_client env none = .error (.valueError apiKeyErrMsg) := by
    simp [get_api_client, hi]
  refine ⟨hk, hi, hg, ?_, ?_, ?_, ?_⟩
  · intro up query limit
    simp [search_items, search_items_body, hg, wrapToolList]
  · intro up item_id
    simp [get_item_details, get_item_details_body, hg, wrapToolObj]
  · intro up
    simp [list_categories, list_categories_body, hg, wrapToolList]
  · intro up limit category
    simp [get_popular_items, get_popular_items_body, hg, wrapToolList]

/-- C6 witness: with an empty environment, the api_key accessor fails
with the configuration error and a search issues no request. -/
theorem c6_missing_api_key_fails_fast_witness :
    Settings.api_key env0 = .error apiKeyErrMsg ∧
    (search_items env0 none upFail "coffee" 10).2 = [] :=
  ⟨(c6_missing_api_key_fails_fast env0 (Or.inl rfl)).1,
   (c6_missing_api_key_fails_fast env0 (Or.inl rfl)).2.2.2.1 upFail "coffee" 10⟩

/-- C3: each of the four tools is a total function of the environment,
the stored client and the upstream behaviour (in the embedding an
exception crossing the tool boundary is unrepresentable), and whenever
the code inside the try block fails with any exception, the tool returns
the one-record inline sentinel carrying the "error" message string built
from that exception — for every input and every failure. -/
theorem c3_tools_never_raise (env : Env) (g : Option APIClient) (up : Upstream) :
    (∀ query limit e t, search_items_body env g up query limit = (.error e, t) →
       search_items env g up query limit = ([errObj ("Search failed: " ++ e.msg)], t)) ∧
    (∀ item_id e t, get_item_details_body env g up item_id = (.error e, t) →
       get_item_details env g up item_id
         = (errObj ("Failed to get item details: " ++ e.msg), t)) ∧
    (∀ e t, list_categories_body env g up = (.error e, t) →
       list_categories env g up = ([errObj ("Failed to list categories: " ++ e.msg)], t)) ∧
    (∀ limit category e t, get_popular_items_body env g up limit category = (.error e, t) →
       get_popular_items env g up limit category
         = ([errObj ("Failed to get popular items: " ++ e.msg)], t)) := by
  refine ⟨?_, ?_, ?_, ?_⟩
  · intro query limit e t h
    show wrapToolList "Search failed: " (search_items_body env g up query limit) = _
    rw [h]
    rfl
  · intro item_id e t h
    show wrapToolObj "Failed to get item details: " (get_item_details_body env g up item_id) = _
    rw [h]
    rfl
  · intro e t h
    show wrapToolList "Failed to list categories: " (list_categories_body env g up) = _
    rw [h]
    rfl
  · intro limit category e t h
    show wrapToolList "Failed to get popular items: "
      (get_popular_items_body env g up limit category) = _
    rw [h]
    rfl

/-- C3 witness: under a transport failure every one of the four tools
returns its inline error sentinel (and, being a function, returns
normally). -/
theorem c3_tools_never_raise_witness :
    search_items envEx none upFail "coffee" 10
      = ([errObj ("Search failed: " ++ "Request failed: boom")],
         (search_items_body envEx none upFail "coffee" 10).2) ∧
    get_item_details envEx none upFail "42"
      = (errObj ("Failed to get item details: " ++ "Request failed: boom"),
         (get_item_details_body envEx none upFail "42").2) ∧
    list_categories envEx none upFail
      = ([errObj ("Failed to list categories: " ++ "Request failed: boom")],
         (list_categories_body envEx none upFail).2) ∧
    get_popular_items envEx none upFail 10 none
      = ([errObj ("Failed to get popular items: " ++ "Request failed: boom")],
         (get_popular_items_body envEx none upFail 10 none).2) :=
  ⟨(c3_tools_never_raise envEx none upFail).1 "coffee" 10
     (.apiError "Request failed: boom") _ rfl,
   (c3_tools_never_raise envEx none upFail).2.1 "42"
     (.apiError "Request failed: boom") _ rfl,
   (c3_tools_never_raise envEx none upFail).2.2.1
     (.apiError "Request failed: boom") _ rfl,
   (c3_tools_never_raise envEx none upFail).2.2.2 10 none
     (.apiError "Request failed: boom") _ rfl⟩

/-- C4: whenever the client is available and the upstream search
response is the JSON object with results [ id "1", name "Foo" ], the
search_items tool outputs exactly one record with id "1", title "Foo"
(the title falls back to name), empty description (the absent
description defaults to the empty string and is stripped), null url and
empty tags. -/
theorem c4_search_reshaping (env : Env) (g g2 : Option APIClient)
    (c : APIClient) (query : String) (limit : Int)
    (h : get_api_client env g = .ok (c, g2)) :
    (search_items env g upC4 query limit).1 = [expectedC4] := by
  show (wrapToolList "Search failed: " (search_items_body env g upC4 query limit)).1 = _
  unfold search_items_body
  rw [h]
  rfl

/-- C4 witness: the scenario run end to end from an unset singleton
under envEx. -/
theorem c4_search_reshaping_witness :
    (search_items envEx none upC4 "coffee" 10).1 = [expectedC4] :=
  c4_search_reshaping envEx none (some cEx) cEx "coffee" 10 rfl

/-- C5: when get_popular_items gets a non-empty category argument, the
upstream categories listing parses, and the scan of its entries finds no
name matching the argument case-insensitively (the loop completes with
its accumulator still None), the tool returns exactly the one-record
Category-not-found sentinel, and the only upstream request issued is the
categories request — no items-by-category request goes out. -/
theorem c5_category_not_found (env : Env) (g g2 : Option APIClient)
    (c : APIClient) (up : Upstream) (limit : Int) (cat : String)
    (catsResult : Json) (cats : List Json) (text : String)
    (hC : get_api_client env g = .ok (c, g2))
    (hcat : cat.isEmpty = false)
    (hup : up (c.request_for "GET" "/categories" []) = .response 200 text (some catsResult))
    (hres : pyGetD catsResult "results" (.arr []) = .ok (.arr cats))
    (hfind : findCategoryId cats cat = .ok .null) :
    get_popular_items env g up limit (some cat)
      = ([errObj ("Category \x27" ++ cat ++ "\x27 not found")],
         [c.request_for "GET" "/categories" []]) := by
  have hl : c.list_categories up
      = (.ok catsResult, c.request_for "GET" "/categories" []) := by
    unfold APIClient.list_categories APIClient.make_request
    rw [hup]
    rfl
  show wrapToolList "Failed to get popular items: "
    (get_popular_items_body env g up limit (some cat)) = _
  simp only [get_popular_items_body, hC, categoryTruthy, hcat, Bool.not_false,
    Option.getD_some, hl, hres, pyIter, hfind, Json.truthy, if_true, wrapToolList]
  rfl

/-- C5 witness: asking for popular items in category Drinks while the
listing only has Food yields the sentinel and only the categories
request. -/
theorem c5_category_not_found_witness :
    get_popular_items envEx none upCats 7 (some "Drinks")
      = ([errObj ("Category \x27" ++ "Drinks" ++ "\x27 not found")],
         [cEx.request_for "GET" "/categories" []]) :=
  c5_category_not_found envEx none (some cEx) cEx upCats 7 "Drinks"
    (.obj [("results", .arr catsListEx)]) catsListEx "ok" rfl rfl rfl rfl rfl

/-- C2: for every upstream response with status at least 400,
_make_request fails with the domain APIError — never a transport-library
error type. For 404 the message is the Not-found message carrying the
endpoint path, so its lowercasing contains "not found" (the source spells
it "Not found") and the message contains the requested path; for 401 it
is the fixed authentication-failure message; for 429 the fixed
rate-limiting message; and for every other error status the generic
message, which contains the numeric status code and the response body
text. -/
theorem c2_status_error_translation (c : APIClient) (up : Upstream)
    (method endpoint : String) (params : List (String × PVal))
    (status : Nat) (text : String) (body : Option Json)
    (hup : up (c.request_for method endpoint params) = .response status text body)
    (h400 : 400 ≤ status) :
    (status = 404 →
       (c.make_request up method endpoint params).1
           = .error (.apiError ("Not found: " ++ endpoint)) ∧
       containsStr (pyLowerStr ("Not found: " ++ endpoint)) "not found" = true ∧
       containsStr ("Not found: " ++ endpoint) endpoint = true) ∧
    (status = 401 →
       (c.make_request up method endpoint params).1
           = .error (.apiError "Invalid API key or authentication failed")) ∧
    (status = 429 →
       (c.make_request up method endpoint params).1
           = .error (.apiError "Rate limit exceeded - try again later")) ∧
    (status ≠ 404 → status ≠ 401 → status ≠ 429 →
       (c.make_request up method endpoint params).1
           = .error (.apiError ("API error " ++ toString status ++ ": " ++ text)) ∧
       containsStr ("API error " ++ toString status ++ ": " ++ text) (toString status) = true ∧
       containsStr ("API error " ++ toString status ++ ": " ++ text) text = true) := by
  have hres : (c.make_request up method endpoint params).1
      = translateOutcome endpoint (.response status text body) := by
    show translateOutcome endpoint (up (c.request_for method endpoint params)) = _
    rw [hup]
  refine ⟨?_, ?_, ?_, ?_⟩
  · intro h404
    subst h404
    refine ⟨by rw [hres]; rfl, ?_, containsStr_suffix "Not found: " endpoint⟩
    rw [pyLowerStr_append]
    have h1 : pyLowerStr "Not found: " = "not found" ++ ": " := by decide
    rw [h1]
    show infixB "not found".data
      (("not found".data ++ ": ".data) ++ (pyLowerStr endpoint).data) = true
    rw [List.append_assoc]
    exact infixB_of_prefixB _ _ (prefixB_append _ _)
  · intro h401
    subst h401
    rw [hres]
    rfl
  · intro h429
    subst h429
    rw [hres]
    rfl
  · intro h404 h401 h429
    refine ⟨?_, ?_, ?_⟩
    · rw [hres]
      simp only [translateOutcome]
      rw [if_pos h400, if_neg (by simp [h404]), if_neg (by simp [h401]),
          if_neg (by simp [h429])]
    · show infixB (toString status).data
        ((("API error ".data ++ (toString status).data) ++ ": ".data) ++ text.data) = true
      rw [List.append_assoc, List.append_assoc]
      exact infixB_sandwich _ _ _
    · show infixB text.data
        ((("API error ".data ++ (toString status).data) ++ ": ".data) ++ text.data) = true
      exact infixB_suffix _ _

/-- C2 witness: a 404 on the search endpoint becomes the APIError whose
message case-insensitively contains not found and contains the path. -/
theorem c2_status_error_translation_witness :
    (cEx.make_request up404 "GET" "/search" []).1
        = .error (.apiError ("Not found: " ++ "/search")) ∧
    containsStr (pyLowerStr ("Not found: " ++ "/search")) "not found" = true ∧
    containsStr ("Not found: " ++ "/search") "/search" = true :=
  (c2_status_error_translation cEx up404 "GET" "/search" [] 404 "missing" none
    rfl (by decide)).1 rfl

/-- Environment which, unlike envEx, sets a base URL and no API key. -/
def envEx2 : Env :=
  fun k => if k == "API_BASE_URL" then some "https://other.example/v2" else none

/-- C10: the client snapshots base URL and API key from the settings in
its constructor; neither get_client nor close changes them; the
singleton returns the stored instance unchanged under any later
environment; every request built by the client carries the
construction-time base URL and API key; and only cleanup_api_client
clears the instance, after which the next acquisition constructs a
fresh client from the then-current environment. -/
theorem c10_settings_snapshot (env env2 : Env) (c : APIClient)
    (hinit : APIClient.init env = .ok c) :
    c.base_url = Settings.api_base_url env ∧
    Settings.api_key env = .ok c.api_key ∧
    (∀ fresh, (c.get_client fresh).2.1.base_url = c.base_url ∧
              (c.get_client fresh).2.1.api_key = c.api_key) ∧
    (c.close.base_url = c.base_url ∧ c.close.api_key = c.api_key) ∧
    get_api_client env2 (some c) = .ok (c, some c) ∧
    (∀ method endpoint params,
       (c.request_for method endpoint params).url
           = Settings.api_base_url env ++ "/" ++ lstripSlash endpoint ∧
       getParam (c.request_for method endpoint params).params "api_key"
           = some (.s c.api_key)) ∧
    cleanup_api_client (some c) = none ∧
    (∀ c2, APIClient.init env2 = .ok c2 →
       get_api_client env2 none = .ok (c2, some c2)) := by
  unfold APIClient.init at hinit
  cases hk : Settings.api_key env with
  | error m =>
    rw [hk] at hinit
    simp at hinit
  | ok k =>
    rw [hk] at hinit
    injection hinit with hc
    subst hc
    refine ⟨rfl, rfl, ?_, ⟨rfl, rfl⟩, rfl, ?_, rfl, ?_⟩
    · intro fresh
      exact ⟨rfl, rfl⟩
    · intro method endpoint params
      exact ⟨rfl, getParam_dictSet params "api_key" (.s k)⟩
    · intro c2 h2
      unfold get_api_client
      rw [h2]

/-- C10 witness: a client built under envEx keeps the envEx settings,
is returned unchanged by the singleton under the different envEx2, puts
the construction-time key on requests, and is cleared by cleanup. -/
theorem c10_settings_snapshot_witness :
    cEx.base_url = Settings.api_base_url envEx ∧
    Settings.api_key envEx = .ok cEx.api_key ∧
    get_api_client envEx2 (some cEx) = .ok (cEx, some cEx) ∧
    getParam (cEx.request_for "GET" "/search" []).params "api_key"
        = some (.s cEx.api_key) ∧
    cleanup_api_client (some cEx) = none :=
  ⟨(c10_settings_snapshot envEx envEx2 cEx rfl).1,
   (c10_settings_snapshot envEx envEx2 cEx rfl).2.1,
   (c10_settings_snapshot envEx envEx2 cEx rfl).2.2.2.2.1,
   ((c10_settings_snapshot envEx envEx2 cEx rfl).2.2.2.2.2.1 "GET" "/search" []).2,
   (c10_settings_snapshot envEx envEx2 cEx rfl).2.2.2.2.2.2.1⟩
